import Mathlib

/-!
Verification of the steemit/steemgosdk repository against its
natural-language specification.

The Go source is shallowly embedded: pure logic becomes Lean functions,
struct state is passed explicitly, external network and cryptographic
collaborators (the steemutil library, declared out of scope by the spec)
are modelled as explicit environment records whose outcomes are inputs,
and Go's nondeterminism (map iteration order, channel arrival order) is
made an explicit parameter.
-/

set_option linter.unusedVariables false

namespace Steem

/-- Decidable equality for `Except`, used to evaluate the embedded
definitions on concrete inputs. -/
instance {ε α : Type} [DecidableEq ε] [DecidableEq α] :
    DecidableEq (Except ε α) := fun x y =>
  match x, y with
  | .ok a, .ok b =>
    if h : a = b then .isTrue (by rw [h]) else .isFalse (by simp [h])
  | .error a, .error b =>
    if h : a = b then .isTrue (by rw [h]) else .isFalse (by simp [h])
  | .ok _, .error _ => .isFalse (by simp)
  | .error _, .ok _ => .isFalse (by simp)

/-! ## JSON-RPC values

Parameters of RPC calls are opaque JSON values; the only structured value
the SDK itself builds at the top level of a params array is the
single-key object wrapping the signed envelope (api/api.go:92-94). -/

/-- The signed envelope payload produced by the external signer
`rpc.Sign` (steemutil, out of scope). Modelled from the spec:
§3 SignedEnvelope `signed` member: account, timestamp, nonce and the
ordered hex signatures. Its exact content is irrelevant to the claims;
it is carried opaquely. -/
structure SignedBlob where
  account : String
  timestamp : Nat
  nonce : String
  signatures : List String
deriving DecidableEq

/-- A value appearing in a JSON-RPC params array: either an opaque
caller-supplied parameter, or a single-key JSON object (the shape the
SDK builds for the `__signed` wrapper in api/api.go:92-94). -/
inductive RpcValue where
  | plain (v : String)
  | objSingle (key : String) (blob : SignedBlob)
deriving DecidableEq

/-! ## api/api.go : the API struct and SignedCall -/

/-- The `API` struct (api/api.go:16-20). -/
structure API where
  url : String
  maxRetry : Nat
  seqNo : Nat
deriving DecidableEq

/-- `NewAPI` (api/api.go:29-34): seqNo starts at its zero value. -/
def NewAPI (url : String) : API :=
  { url := url, maxRetry := 5, seqNo := 0 }

/-- Go `strings.HasPrefix`, as a prefix test on the character sequence. -/
def goHasPrefix (s pre : String) : Bool :=
  pre.toList.isPrefixOf s.toList

/-- `API.validateTransportForSignedCall` (api/api.go:135-141): returns
the error message when the url has neither an http nor an https scheme,
and nothing otherwise. -/
def API.validateTransportForSignedCall (a : API) : Option String :=
  if !(goHasPrefix a.url "http://") && !(goHasPrefix a.url "https://") then
    some "signed calls can only be made when using HTTP transport"
  else
    none

/-- Observable side effects of a signed call: a cryptographic signing
operation (`rpc.Sign`) or a network send (`rpcClient.Send`). -/
inductive Effect where
  | sign
  | send
deriving DecidableEq

/-- Error outcomes of `API.SignedCall`, one per return path. -/
inductive SignedCallError where
  | transport
  | signFailed (msg : String)
  | buildFailed (msg : String)
  | sendFailed (msg : String)
  | rpcError (msg : String)
deriving DecidableEq

/-- A JSON-RPC response as seen by the SDK: an optional error member and
a result value (steemutil's RpcResultData, out of scope, carried
opaquely). -/
structure RpcResponse where
  error : Option String
  result : String
deriving DecidableEq

/-- Environment for one `API.SignedCall` attempt: outcomes of the three
external collaborators it consults, in program order — the signer
`rpc.Sign`, the request builder `BuildSendData`, and the network
`Send`. -/
structure SignedCallEnv where
  signResult : Except String SignedBlob
  buildOk : Bool
  sendResult : Except String RpcResponse
  /-- Whether re-marshalling the result into the caller's object
  succeeds (`SignedCallWithResult`, api/api.go:121-128). -/
  unmarshalOk : Bool
deriving DecidableEq

/-- Everything observable about one `API.SignedCall` invocation: the
final struct state, the effects performed, the request id stamped into
the `rpc.RpcRequest` handed to the signer (api/api.go:76-80), the params
array handed to `BuildSendData` (api/api.go:97), and the outcome. -/
structure SignedCallOut where
  api : API
  effects : List Effect
  requestId : Option Nat
  builtParams : Option (List RpcValue)
  outcome : Except SignedCallError String
deriving DecidableEq

/-- `API.SignedCall` (api/api.go:66-112), with the external collaborator
outcomes supplied by `env`. Mirrors the source's control flow: transport
validation, sequence-number increment, signing, wrapping the signed
payload as the single-element params array containing the `__signed`
object, building and sending. -/
def API.SignedCall (a : API) (method : String) (params : List RpcValue)
    (account privateKey : String) (env : SignedCallEnv) : SignedCallOut :=
  match a.validateTransportForSignedCall with
  | some _ =>
    { api := a, effects := [], requestId := none, builtParams := none,
      outcome := .error .transport }
  | none =>
    -- a.seqNo++ ; request ID = a.seqNo (api/api.go:73-80)
    let a' : API := { a with seqNo := a.seqNo + 1 }
    match env.signResult with
    | .error msg =>
      { api := a', effects := [.sign], requestId := some a'.seqNo,
        builtParams := none, outcome := .error (.signFailed msg) }
    | .ok signedBlob =>
      -- signedParams := map with the single key "__signed" (api/api.go:92-94)
      let signedParams : RpcValue := .objSingle "__signed" signedBlob
      -- BuildSendData(method, []interface\x7bsignedParams\x7d) (api/api.go:97)
      let built : List RpcValue := [signedParams]
      if env.buildOk then
        match env.sendResult with
        | .error msg =>
          { api := a', effects := [.sign, .send], requestId := some a'.seqNo,
            builtParams := some built, outcome := .error (.sendFailed msg) }
        | .ok resp =>
          match resp.error with
          | some msg =>
            { api := a', effects := [.sign, .send], requestId := some a'.seqNo,
              builtParams := some built, outcome := .error (.rpcError msg) }
          | none =>
            { api := a', effects := [.sign, .send], requestId := some a'.seqNo,
              builtParams := some built, outcome := .ok resp.result }
      else
        { api := a', effects := [.sign], requestId := some a'.seqNo,
          builtParams := some built, outcome := .error (.buildFailed method) }

/-- Error outcomes of the client-level signed calls
(unnamed/part_002:72-115): the three local precondition failures, a
delegated API failure, or a result (un)marshalling failure
(api/api.go:121-128). -/
inductive ClientError where
  | accountNotSet
  | invalidKeyType (k : String)
  | keyNotFound (k : String)
  | call (e : SignedCallError)
  | unmarshal
deriving DecidableEq

/-- `API.SignedCallWithResult` (api/api.go:115-131): delegates to
`SignedCall`, then re-marshals the result into the caller's object;
the marshalling outcome comes from the environment. Returns the final
state, the effects performed, and the outcome. -/
def API.SignedCallWithResult (a : API) (method : String)
    (params : List RpcValue) (account privateKey : String)
    (env : SignedCallEnv) : API × List Effect × Except ClientError Unit :=
  let out := a.SignedCall method params account privateKey env
  match out.outcome with
  | .error e => (out.api, out.effects, .error (.call e))
  | .ok _ =>
    if env.unmarshalOk then (out.api, out.effects, .ok ())
    else (out.api, out.effects, .error .unmarshal)

/-- One call of a session: the arguments of one `API.SignedCall`
invocation together with its environment. -/
structure CallInput where
  method : String
  params : List RpcValue
  account : String
  privateKey : String
  env : SignedCallEnv

/-- Run a sequence of `SignedCall` invocations on one `API` instance,
threading the struct state, and collect the request ids that were
actually stamped into requests. -/
def runCalls (a : API) : List CallInput → API × List Nat
  | [] => (a, [])
  | c :: cs =>
    let out := a.SignedCall c.method c.params c.account c.privateKey c.env
    let rest := runCalls out.api cs
    (rest.1, out.requestId.toList ++ rest.2)

/-! ## consts and the client (client/client.go, unnamed/part_002) -/

/-- Modelled from the spec: the `consts` package of this repository is
not under src/; §3 fixes the closed role set
`enum(owner,active,posting,memo)` and docs/signed-call.md names the
keyType strings "active", "posting", "owner", "memo". -/
def OWNER_KEY : String := "owner"

/-- Modelled from the spec: see `OWNER_KEY`. -/
def ACTIVE_KEY : String := "active"

/-- Modelled from the spec: see `OWNER_KEY`. -/
def POSTING_KEY : String := "posting"

/-- Modelled from the spec: see `OWNER_KEY`. -/
def MEMO_KEY : String := "memo"

/-- `checkKeyType` (client/client.go:316-330, unnamed/part_002:54-68):
the if-chain over the four constants. -/
def checkKeyType (keyType : String) : Bool :=
  if keyType = ACTIVE_KEY then true
  else if keyType = POSTING_KEY then true
  else if keyType = OWNER_KEY then true
  else if keyType = MEMO_KEY then true
  else false

/-- The `Client` struct (client/client.go:88-93, unnamed/part_002:14-19).
`Wifs` is the Go map from key type to the imported private key; a
private key object is modelled by its WIF string (ToWif returns it). -/
structure Client where
  Url : String
  MaxRetry : Nat
  AccountName : String
  Wifs : List (String × String)
deriving DecidableEq

/-- `Client.GetAPI` (unnamed/part_002:38-42): NewAPI(c.Url) followed by
SetMaxRetry(c.MaxRetry). -/
def Client.GetAPI (c : Client) : API :=
  { url := c.Url, maxRetry := c.MaxRetry, seqNo := 0 }

/-- `Client.SignedCall` (unnamed/part_002:72-92): account-name check,
key-type check, key lookup — in that order — then delegation to
`API.SignedCall` with the stored key's WIF. Returns the effects
performed and the outcome. -/
def Client.SignedCall (c : Client) (method : String) (params : List RpcValue)
    (keyType : String) (env : SignedCallEnv) :
    List Effect × Except ClientError String :=
  if c.AccountName = "" then
    ([], .error .accountNotSet)
  else if !(checkKeyType keyType) then
    ([], .error (.invalidKeyType keyType))
  else
    match c.Wifs.lookup keyType with
    | none => ([], .error (.keyNotFound keyType))
    | some privateKey =>
      let privateKeyWif := privateKey
      let out := (c.GetAPI).SignedCall method params c.AccountName privateKeyWif env
      (out.effects, out.outcome.mapError .call)

/-- `Client.SignedCallWithResult` (unnamed/part_002:95-115): the same
three checks in the same order, then delegation to
`API.SignedCallWithResult`. -/
def Client.SignedCallWithResult (c : Client) (method : String)
    (params : List RpcValue) (keyType : String) (env : SignedCallEnv) :
    List Effect × Except ClientError Unit :=
  if c.AccountName = "" then
    ([], .error .accountNotSet)
  else if !(checkKeyType keyType) then
    ([], .error (.invalidKeyType keyType))
  else
    match c.Wifs.lookup keyType with
    | none => ([], .error (.keyNotFound keyType))
    | some privateKey =>
      let privateKeyWif := privateKey
      let out := (c.GetAPI).SignedCallWithResult method params c.AccountName privateKeyWif env
      (out.2.1, out.2.2)

/-! ## Chain state and time (broadcast pipeline collaborators) -/

/-- The dynamic global properties fields the SDK reads
(steemutil protocol/api, out of scope; §6 chain-state collaborator). -/
structure DynamicGlobalProperties where
  HeadBlockNumber : Nat
  HeadBlockId : String
  LastIrreversibleBlockNum : Nat
deriving DecidableEq

/-- The block fields the SDK reads (§6: GetBlock exposes the previous
block id). -/
structure Block where
  Previous : String
deriving DecidableEq

/-- A Go `time.Time`: the instant (unix seconds) together with its
location. `time.Now()` carries the local location; `.UTC()` re-tags the
same instant with the UTC location. -/
inductive GoLoc where
  | localZone
  | utc
deriving DecidableEq

/-- See `GoLoc`. -/
structure GoTime where
  unix : Int
  loc : GoLoc
deriving DecidableEq

/-- Go `time.Now()`: the current instant in the local location. -/
def timeNow (nowUnix : Int) : GoTime :=
  { unix := nowUnix, loc := .localZone }

/-- Go `Time.Add` of a number of seconds: same location, shifted
instant. -/
def GoTime.add (t : GoTime) (secs : Int) : GoTime :=
  { t with unix := t.unix + secs }

/-- Go `Time.UTC()`: same instant, UTC location. -/
def GoTime.toUTC (t : GoTime) : GoTime :=
  { t with loc := .utc }

/-- Environment of the transaction-preparation pipeline: outcomes of the
chain-state collaborator calls and the current wall-clock reading. -/
structure ChainEnv where
  dgp : Except String DynamicGlobalProperties
  getBlock : Nat → Except String Block
  nowUnix : Int

/-! ## Transactions and signing (steemutil collaborators, modelled) -/

/-- An operation, opaque to the claims considered here. -/
abbrev Operation := String

/-- Modelled from the spec: the digest the external
`transaction.Sign`/`Digest` computes (§4.5, §6 serialization
collaborator): a pure function of the chain id and the serialized
transaction body (signatures excluded). -/
structure TxDigest where
  chain : String
  RefBlockNum : Nat
  RefBlockPrefix : Nat
  Expiration : GoTime
  Operations : List Operation
  Extensions : Option (List String)
deriving DecidableEq

/-- Modelled from the spec: a signature produced by the external crypto
collaborator (§6): it binds a digest and the private key that produced
it; its byte content is opaque, so it is modelled by that pair. -/
structure Signature where
  digest : TxDigest
  key : String
deriving DecidableEq

/-- The transaction struct the SDK assembles
(steemutil transaction.Transaction, fields as used by the source).
`Extensions = none` models the nil Go slice of a struct literal that
never sets the field; `some []` models an explicitly initialized empty
slice. -/
structure Transaction where
  RefBlockNum : Nat
  RefBlockPrefix : Nat
  Expiration : GoTime
  Operations : List Operation
  Extensions : Option (List String)
  Signatures : List Signature
deriving DecidableEq

/-- `tx.PushOperation` appends the operation (caller order preserved). -/
def Transaction.PushOperation (t : Transaction) (op : Operation) : Transaction :=
  { t with Operations := t.Operations ++ [op] }

/-- Push a whole operation list, in order (the `for _, op := range ops`
loops of broadcast.go:97-99 and unnamed/part_008:203-205). -/
def Transaction.pushAll (t : Transaction) (ops : List Operation) : Transaction :=
  ops.foldl (fun acc op => acc.PushOperation op) t

/-- Modelled from the spec: the chain-identifying constant for
transaction signing (§6; `transaction.SteemChain` in steemutil). -/
def SteemChain : String := "steem-chain-id"

/-- The digest of a transaction under a chain id (see `TxDigest`). -/
def Transaction.digest (t : Transaction) (chain : String) : TxDigest :=
  { chain := chain, RefBlockNum := t.RefBlockNum,
    RefBlockPrefix := t.RefBlockPrefix, Expiration := t.Expiration,
    Operations := t.Operations, Extensions := t.Extensions }

/-- Modelled from the spec: the external `tx.Sign` (§4.5): computes the
digest over the chain id and serialized transaction once, signs it with
each key in the supplied order, and appends the signatures in that same
order. -/
def Transaction.sign (t : Transaction) (keys : List String) (chain : String) :
    Transaction :=
  { t with
    Signatures := t.Signatures ++ keys.map (fun k => { digest := t.digest chain, key := k }) }

/-- Modelled from the spec: `transaction.RefBlockNum` (steemutil, out of
scope): the low 16 bits of the reference block number (§4.4 step 2). -/
def RefBlockNum (blockNumber : Nat) : Nat :=
  blockNumber % 65536

/-- Value of a hex digit. -/
def hexVal (c : Char) : Option Nat :=
  if '0' ≤ c ∧ c ≤ '9' then some (c.toNat - '0'.toNat)
  else if 'a' ≤ c ∧ c ≤ 'f' then some (c.toNat - 'a'.toNat + 10)
  else if 'A' ≤ c ∧ c ≤ 'F' then some (c.toNat - 'A'.toNat + 10)
  else none

/-- Hex decoding of a character sequence into bytes; fails on an odd
length or a non-hex character. -/
def hexBytes : List Char → Option (List Nat)
  | [] => some []
  | [_] => none
  | a :: b :: rest =>
    match hexVal a, hexVal b, hexBytes rest with
    | some hi, some lo, some bs => some ((16 * hi + lo) :: bs)
    | _, _, _ => none

/-- Modelled from the spec: `transaction.RefBlockPrefix` (steemutil, out
of scope): hex-decodes the block id and extracts the 32-bit
little-endian integer at byte offset 4 (§4.4 step 3, §6); fails on a
malformed or too-short id. -/
def RefBlockPrefix (blockId : String) : Except String Nat :=
  match hexBytes blockId.toList with
  | none => .error "failed to decode block id"
  | some bs =>
    if bs.length < 8 then .error "block id too short"
    else .ok (bs.getD 4 0 + 256 * bs.getD 5 0 + 65536 * bs.getD 6 0 +
              16777216 * bs.getD 7 0)

/-! ## broadcast/broadcast.go (head-block policy) -/

namespace BroadcastGo

/-- `Broadcast.prepareTransaction` (broadcast/broadcast.go:66-102):
empty-operations check; fetch dynamic global properties; refBlockNum
from the head block number; refBlockPrefix from the head block id;
expiration = time.Now().Add(600 * time.Second) — no UTC conversion;
struct literal without an Extensions field (nil slice); operations
pushed in caller order. -/
def prepareTransaction (ops : List Operation) (env : ChainEnv) :
    Except String Transaction :=
  if ops.length = 0 then .error "no operations provided"
  else
    match env.dgp with
    | .error e => .error e
    | .ok dgp =>
      let refBlockNum := RefBlockNum dgp.HeadBlockNumber
      match RefBlockPrefix dgp.HeadBlockId with
      | .error e => .error e
      | .ok refBlockPrefix =>
        let expiration := (timeNow env.nowUnix).add 600
        let tx : Transaction :=
          { RefBlockNum := refBlockNum, RefBlockPrefix := refBlockPrefix,
            Expiration := expiration, Operations := [],
            Extensions := none, Signatures := [] }
        .ok (tx.pushAll ops)

/-- Decode the WIF strings encountered while ranging over the privKeys
map (broadcast/broadcast.go:42-49): keys are collected in iteration
order; the first decode failure aborts. The map iteration order is the
explicit `iter` list. -/
def decodeWifs (iter : List (String × String))
    (fromWif : String → Option String) : Option (List String) :=
  match iter with
  | [] => some []
  | (_, wifStr) :: rest =>
    match fromWif wifStr, decodeWifs rest fromWif with
    | some k, some ks => some (k :: ks)
    | _, _ => none

/-- What one `Broadcast.Send` run exposes: the signed transaction handed
to `BroadcastSync` (if reached) and the outcome. -/
structure SendOut where
  sentTx : Option Transaction
  result : Except String String
deriving DecidableEq

/-- `Broadcast.Send` (broadcast/broadcast.go:34-63; identically
unnamed/part_008:56-154 with its DEBUG-gated diagnostics disabled):
prepare, range over the privKeys map decoding WIFs in iteration order,
sign with the decoded keys in that order, broadcast. Go randomizes the
iteration order of a map per run, so the order is the explicit
`privKeysIter` argument: any permutation of the map's entries is a
possible run. -/
def Send (ops : List Operation) (privKeysIter : List (String × String))
    (env : ChainEnv) (fromWif : String → Option String)
    (broadcastResult : Except String String) : SendOut :=
  match prepareTransaction ops env with
  | .error e => { sentTx := none, result := .error e }
  | .ok tx =>
    match decodeWifs privKeysIter fromWif with
    | none => { sentTx := none, result := .error "failed to decode WIF" }
    | some keys =>
      if keys.length = 0 then
        -- Modelled from the spec: §4.5 Sign FailsWith(NoKeysProvided).
        { sentTx := none, result := .error "no keys provided" }
      else
        let tx' := tx.sign keys SteemChain
        match broadcastResult with
        | .error e => { sentTx := some tx', result := .error e }
        | .ok r => { sentTx := some tx', result := .ok r }

end BroadcastGo

/-! ## unnamed/part_008 (last-irreversible policy) -/

namespace BroadcastPart8

/-- `Broadcast.prepareTransaction` (unnamed/part_008:157-208):
empty-operations check; fetch dynamic global properties; refBlockNum
from `(lastIrreversibleBlockNum - 1) & 0xFFFF` where the subtraction is
Go uint32 arithmetic, so it is modelled as addition of `2^32 - 1`
modulo `2^32`; the reference block's id for the prefix is the
`Previous` id of the block at lastIrreversibleBlockNum, falling back to
the all-zero id when absent; expiration =
time.Now().UTC().Add(600 * time.Second); Extensions explicitly
initialized to an empty slice; operations pushed in caller order. -/
def prepareTransaction (ops : List Operation) (env : ChainEnv) :
    Except String Transaction :=
  if ops.length = 0 then .error "no operations provided"
  else
    match env.dgp with
    | .error e => .error e
    | .ok dgp =>
      let refBlockNum :=
        RefBlockNum (((dgp.LastIrreversibleBlockNum + 4294967295) % 4294967296) % 65536)
      match env.getBlock dgp.LastIrreversibleBlockNum with
      | .error e => .error e
      | .ok block =>
        let previousBlockId :=
          if block.Previous = "" then
            "0000000000000000000000000000000000000000"
          else block.Previous
        match RefBlockPrefix previousBlockId with
        | .error e => .error e
        | .ok refBlockPrefix =>
          let expiration := ((timeNow env.nowUnix).toUTC).add 600
          let tx : Transaction :=
            { RefBlockNum := refBlockNum, RefBlockPrefix := refBlockPrefix,
              Expiration := expiration, Operations := [],
              Extensions := some [], Signatures := [] }
          .ok (tx.pushAll ops)

end BroadcastPart8

/-! ## Concurrent block fetching (client/client.go:175-227) -/

/-- `WrapBlock` (client/client.go:95-98). The inner pointer may be nil
(`none`). -/
structure WrapBlock where
  BlockNum : Nat
  Block : Option Block
deriving DecidableEq

/-- Outcome of a Go function in the embedding: a normal return, an
error return, or a runtime crash (nil-pointer dereference). -/
inductive GoResult (α : Type) where
  | ok (val : α)
  | err (msg : String)
  | crash
deriving DecidableEq

/-- The retry loop of `Client.wrapGetBlock` (client/client.go:181-188):
attempts indexed 0, 1, … up to maxRetry; the result is the first
successful fetch, if any within the budget. -/
def getBlockLoop (attempts : Nat → Option Block) (maxRetry : Nat) :
    Option Block :=
  (List.range maxRetry).foldl
    (fun acc i =>
      match acc with
      | some b => some b
      | none => attempts i)
    none

/-- `Client.wrapGetBlock` (client/client.go:175-198): what it sends on
the channel. On failure after the retry budget it sends a nil pointer
(`none`). When maxRetry is 0 the loop body never runs, so `err` keeps
its nil zero value and a WrapBlock with a nil Block pointer is sent. -/
def Client.wrapGetBlock (maxRetry blockNum : Nat)
    (attempts : Nat → Option Block) : Option WrapBlock :=
  if maxRetry = 0 then some { BlockNum := blockNum, Block := none }
  else
    match getBlockLoop attempts maxRetry with
    | some b => some { BlockNum := blockNum, Block := some b }
    | none => none

/-- The `blocksMap` insertion `blocksMap[result.BlockNum] = result`
(client/client.go:217). -/
def insertWB (m : Nat → Option WrapBlock) (w : WrapBlock) :
    Nat → Option WrapBlock :=
  fun k => if k = w.BlockNum then some w else m k

/-- The fan-in receive loop of `Client.GetBlocks`
(client/client.go:214-221), processing the channel messages in arrival
order. Receiving a nil pointer crashes: `result.BlockNum` dereferences
nil before the nil check on the map entry can run. After a non-nil
insert the checked entry is the value just stored, so the error branch
(client/client.go:219) cannot fire. -/
def collectBlocks : List (Option WrapBlock) → (Nat → Option WrapBlock) →
    GoResult (Nat → Option WrapBlock)
  | [], m => .ok m
  | none :: _, _ => .crash
  | some w :: rest, m =>
    let m' := insertWB m w
    if m' w.BlockNum = none then .err "get block error"
    else collectBlocks rest m'

/-- `Client.GetBlocks` (client/client.go:201-227; the receive-and-sort
logic is textually identical in `API.GetBlocks`, api/api.go:237-263):
range check, fan-in collection keyed by block number, then re-emission
in ascending block-number order. The channel arrival order is the
explicit `received` list: one message per spawned `wrapGetBlock`, in
any order. -/
def Client.GetBlocks (fromN toN : Nat)
    (received : List (Option WrapBlock)) :
    GoResult (List (Option WrapBlock)) :=
  if fromN ≥ toN then .err "unexpected params"
  else
    match collectBlocks received (fun _ => none) with
    | .crash => .crash
    | .err e => .err e
    | .ok m => .ok ((List.range' fromN (toN - fromN)).map (fun i => m i))

/-! ## Concrete inputs used by witnesses and counterexamples -/

/-- A concrete signed envelope payload. -/
def c1Blob : SignedBlob :=
  { account := "alice", timestamp := 1700000000,
    nonce := "0011223344556677", signatures := ["1f2a"] }

/-- A fully successful signed-call environment. -/
def c1Env : SignedCallEnv :=
  { signResult := .ok c1Blob, buildOk := true,
    sendResult := .ok { error := none, result := "result" },
    unmarshalOk := true }

/-- An environment whose network send fails. -/
def c3Env : SignedCallEnv :=
  { signResult := .ok c1Blob, buildOk := true,
    sendResult := .error "connection refused", unmarshalOk := true }

/-- A concrete session call. -/
def c3Call : CallInput :=
  { method := "condenser_api.get_accounts", params := [.plain "alice"],
    account := "alice", privateKey := "5Key", env := c3Env }

/-- Concrete dynamic global properties with valid 40-hex-digit ids. -/
def demoDgp : DynamicGlobalProperties :=
  { HeadBlockNumber := 20221123,
    HeadBlockId := "0134a3c300112233445566778899aabbccddeeff",
    LastIrreversibleBlockNum := 20221100 }

/-- A concrete block whose Previous id is a valid 40-hex-digit id. -/
def demoBlk : Block :=
  { Previous := "0134a3c2ffeeddccbbaa99887766554433221100" }

/-- A chain environment in which every collaborator call succeeds. -/
def demoChainEnv : ChainEnv :=
  { dgp := .ok demoDgp, getBlock := fun _ => .ok demoBlk,
    nowUnix := 1700000000 }

/-- One possible Go iteration order of the two-key privKeys map. -/
def c2IterA : List (String × String) :=
  [("active", "5KeyActive"), ("posting", "5KeyPosting")]

/-- The other possible Go iteration order of the same map. -/
def c2IterB : List (String × String) :=
  [("posting", "5KeyPosting"), ("active", "5KeyActive")]

/-- The transaction broadcast.go's prepareTransaction builds in
`demoChainEnv` for the single operation "vote". -/
def c7Tx1 : Transaction :=
  { RefBlockNum := 36035, RefBlockPrefix := 857870592,
    Expiration := { unix := 1700000600, loc := .localZone },
    Operations := ["vote"], Extensions := none, Signatures := [] }

/-- The transaction part_008's prepareTransaction builds in
`demoChainEnv` for the single operation "vote". -/
def c7Tx8 : Transaction :=
  { RefBlockNum := 36011, RefBlockPrefix := 3437096703,
    Expiration := { unix := 1700000600, loc := .utc },
    Operations := ["vote"], Extensions := some [], Signatures := [] }

/-- Channel contents for a range [10, 12) in which block 10 exhausted
its retry budget (nil pointer sent) and block 11 succeeded. -/
def c5Received : List (Option WrapBlock) :=
  [Client.wrapGetBlock 1 10 (fun _ => none),
   Client.wrapGetBlock 1 11 (fun _ => some { Previous := "ab" })]

/-- A client with no account name set. -/
def c10NoAccount : Client :=
  { Url := "https://api.steemit.com", MaxRetry := 5, AccountName := "",
    Wifs := [("active", "5Key")] }

/-- A client with an account but no imported keys. -/
def c10NoKeys : Client :=
  { Url := "https://api.steemit.com", MaxRetry := 5, AccountName := "alice",
    Wifs := [] }

end Steem

namespace Steem

/-! ## Helper lemmas about API.SignedCall -/

/-- When transport validation rejects the url, `SignedCall` leaves the
struct untouched and stamps no request id. -/
theorem signedCall_of_invalid_transport (a : API) (m : String)
    (ps : List RpcValue) (acct k : String) (env : SignedCallEnv)
    (msg : String) (h : a.validateTransportForSignedCall = some msg) :
    (a.SignedCall m ps acct k env).api = a ∧
    (a.SignedCall m ps acct k env).requestId = none ∧
    (a.SignedCall m ps acct k env).effects = [] ∧
    (a.SignedCall m ps acct k env).builtParams = none ∧
    (a.SignedCall m ps acct k env).outcome = .error .transport := by
  simp [API.SignedCall, h]

/-- When transport validation passes, `SignedCall` increments seqNo once
and stamps exactly the incremented value as the request id, on every
outcome path. -/
theorem signedCall_of_valid_transport (a : API) (m : String)
    (ps : List RpcValue) (acct k : String) (env : SignedCallEnv)
    (h : a.validateTransportForSignedCall = none) :
    (a.SignedCall m ps acct k env).api.seqNo = a.seqNo + 1 ∧
    (a.SignedCall m ps acct k env).requestId = some (a.seqNo + 1) := by
  cases hs : env.signResult with
  | error msg => simp [API.SignedCall, h, hs]
  | ok blob =>
    cases hb : env.buildOk with
    | false => simp [API.SignedCall, h, hs, hb]
    | true =>
      cases hsr : env.sendResult with
      | error msg => simp [API.SignedCall, h, hs, hb, hsr]
      | ok resp =>
        cases hre : resp.error <;> simp [API.SignedCall, h, hs, hb, hsr, hre]

/-- Each `SignedCall` either consumes no id and keeps the state, or
consumes exactly the id `seqNo + 1` and advances seqNo to it. -/
theorem signedCall_step (a : API) (m : String) (ps : List RpcValue)
    (acct k : String) (env : SignedCallEnv) :
    ((a.SignedCall m ps acct k env).requestId = none ∧
      (a.SignedCall m ps acct k env).api = a) ∨
    ((a.SignedCall m ps acct k env).requestId = some (a.seqNo + 1) ∧
      (a.SignedCall m ps acct k env).api.seqNo = a.seqNo + 1) := by
  cases hv : a.validateTransportForSignedCall with
  | some msg =>
    have h := signedCall_of_invalid_transport a m ps acct k env msg hv
    exact .inl ⟨h.2.1, h.1⟩
  | none =>
    have h := signedCall_of_valid_transport a m ps acct k env hv
    exact .inr ⟨h.2, h.1⟩

/-- The seqNo never decreases across a session, and every id stamped
during the session lies strictly above the starting seqNo and at most
at the final seqNo. -/
theorem runCalls_bounds (cs : List CallInput) : ∀ a : API,
    a.seqNo ≤ (runCalls a cs).1.seqNo ∧
    ∀ i ∈ (runCalls a cs).2, a.seqNo < i ∧ i ≤ (runCalls a cs).1.seqNo := by
  induction cs with
  | nil => intro a; simp [runCalls]
  | cons c cs ih =>
    intro a
    rcases signedCall_step a c.method c.params c.account c.privateKey c.env with
      ⟨hid, hapi⟩ | ⟨hid, hseq⟩
    · simp only [runCalls, hid, Option.toList_none, List.nil_append]
      rw [hapi]
      exact ih a
    · simp only [runCalls, hid, Option.toList_some, List.cons_append,
        List.nil_append, List.mem_cons]
      have hrest := ih (a.SignedCall c.method c.params c.account c.privateKey c.env).api
      constructor
      · omega
      · intro i hi
        rcases hi with rfl | hi
        · omega
        · have := hrest.2 i hi
          omega

/-- The ids stamped during a session are strictly increasing. -/
theorem runCalls_ids_pairwise (cs : List CallInput) : ∀ a : API,
    (runCalls a cs).2.Pairwise (· < ·) := by
  induction cs with
  | nil => intro a; simp [runCalls]
  | cons c cs ih =>
    intro a
    rcases signedCall_step a c.method c.params c.account c.privateKey c.env with
      ⟨hid, hapi⟩ | ⟨hid, hseq⟩
    · simp only [runCalls, hid, Option.toList_none, List.nil_append]
      exact ih _
    · simp only [runCalls, hid, Option.toList_some, List.cons_append,
        List.nil_append]
      refine List.pairwise_cons.mpr ⟨?_, ih _⟩
      intro j hj
      have hb := (runCalls_bounds cs
        (a.SignedCall c.method c.params c.account c.privateKey c.env).api).2 j hj
      omega

/-! ## C1 -/

/-- C1 (amended): for every signed call that reaches request building,
the outgoing JSON-RPC params array is exactly the one-element array
containing the object keyed "__signed"; the original RPC params are not
appended alongside it (api/api.go:91-97 passes only the wrapper to
BuildSendData). -/
theorem C1_outgoing_params_single_signed_object (a : API) (m : String)
    (ps : List RpcValue) (acct k : String) (env : SignedCallEnv)
    (blob : SignedBlob) (hT : a.validateTransportForSignedCall = none)
    (hS : env.signResult = .ok blob) :
    (a.SignedCall m ps acct k env).builtParams =
      some [RpcValue.objSingle "__signed" blob] := by
  cases hb : env.buildOk with
  | false => simp [API.SignedCall, hT, hS, hb]
  | true =>
    cases hsr : env.sendResult with
    | error msg => simp [API.SignedCall, hT, hS, hb, hsr]
    | ok resp =>
      cases hre : resp.error <;> simp [API.SignedCall, hT, hS, hb, hsr, hre]

/-- C1 (counterexample): on a concrete successful signed call whose
original params array is nonempty, the outgoing params array is the
single `__signed` object and is not the original params with the object
appended. -/
theorem C1_counterexample :
    (API.SignedCall { url := "https://api.steemit.com", maxRetry := 5, seqNo := 0 }
        "condenser_api.get_accounts" [RpcValue.plain "alice"] "alice" "5Key"
        c1Env).builtParams =
      some [RpcValue.objSingle "__signed" c1Blob] ∧
    ((API.SignedCall { url := "https://api.steemit.com", maxRetry := 5, seqNo := 0 }
        "condenser_api.get_accounts" [RpcValue.plain "alice"] "alice" "5Key"
        c1Env).builtParams ==
      some ([RpcValue.plain "alice"] ++ [RpcValue.objSingle "__signed" c1Blob])) = false := by
  constructor <;> decide

/-- C1 (witness): the amended theorem applied at a concrete input. -/
theorem C1_witness :
    (API.SignedCall { url := "https://api.steemit.com", maxRetry := 5, seqNo := 0 }
        "condenser_api.get_accounts" [RpcValue.plain "alice"] "alice" "5Key"
        c1Env).builtParams =
      some [RpcValue.objSingle "__signed" c1Blob] :=
  C1_outgoing_params_single_signed_object
    { url := "https://api.steemit.com", maxRetry := 5, seqNo := 0 }
    "condenser_api.get_accounts" [RpcValue.plain "alice"] "alice" "5Key"
    c1Env c1Blob (by decide) (by decide)

/-! ## C3 -/

/-- C3 (amended): the per-session sequence number increments exactly
once per call attempt that passes transport validation — including
attempts that then fail at signing, building, sending, or with an RPC
error — and the incremented value is the identifier stamped into that
attempt's request; attempts rejected by the transport check leave the
counter unchanged and stamp no identifier; consequently the identifiers
stamped within a session are pairwise distinct. -/
theorem C3_sequence_numbers (a : API) (m : String) (ps : List RpcValue)
    (acct k : String) (env : SignedCallEnv) (cs : List CallInput) :
    (a.validateTransportForSignedCall = none →
      (a.SignedCall m ps acct k env).api.seqNo = a.seqNo + 1 ∧
      (a.SignedCall m ps acct k env).requestId = some (a.seqNo + 1)) ∧
    (∀ msg, a.validateTransportForSignedCall = some msg →
      (a.SignedCall m ps acct k env).api = a ∧
      (a.SignedCall m ps acct k env).requestId = none) ∧
    (runCalls a cs).2.Nodup := by
  refine ⟨fun h => signedCall_of_valid_transport a m ps acct k env h,
    fun msg h => ⟨(signedCall_of_invalid_transport a m ps acct k env msg h).1,
      (signedCall_of_invalid_transport a m ps acct k env msg h).2.1⟩, ?_⟩
  exact (runCalls_ids_pairwise cs a).imp (fun h => Nat.ne_of_lt h)

/-- C3 (counterexample): a call attempt on a non-HTTP endpoint fails but
does not increment the sequence number, refuting "increments exactly
once per call attempt, including failed attempts". -/
theorem C3_counterexample :
    (API.SignedCall { url := "wss://api.steemit.com", maxRetry := 5, seqNo := 0 }
        "condenser_api.get_accounts" [RpcValue.plain "alice"] "alice" "5Key"
        c3Env).outcome = .error .transport ∧
    (API.SignedCall { url := "wss://api.steemit.com", maxRetry := 5, seqNo := 0 }
        "condenser_api.get_accounts" [RpcValue.plain "alice"] "alice" "5Key"
        c3Env).api.seqNo = 0 := by
  constructor <;> decide

/-- C3 (witness): the amended theorem applied at a concrete session of
two attempts that both fail at the network layer. -/
theorem C3_witness :
    (API.SignedCall { url := "https://api.steemit.com", maxRetry := 5, seqNo := 0 }
        "condenser_api.get_accounts" [RpcValue.plain "alice"] "alice" "5Key"
        c3Env).api.seqNo = 0 + 1 ∧
    (runCalls { url := "https://api.steemit.com", maxRetry := 5, seqNo := 0 }
        [c3Call, c3Call]).2.Nodup :=
  ⟨((C3_sequence_numbers { url := "https://api.steemit.com", maxRetry := 5, seqNo := 0 }
      "condenser_api.get_accounts" [RpcValue.plain "alice"] "alice" "5Key"
      c3Env []).1 (by decide)).1,
   (C3_sequence_numbers { url := "https://api.steemit.com", maxRetry := 5, seqNo := 0 }
      "condenser_api.get_accounts" [RpcValue.plain "alice"] "alice" "5Key"
      c3Env [c3Call, c3Call]).2.2⟩

/-! ## C4 -/

/-- C4: for every endpoint url whose scheme is neither http:// nor
https://, SignedCall fails with the distinguishable transport error
before any signature is computed and before any network request is
sent: the outcome is the transport error, no effects are performed, no
request is built, and the struct state is untouched. -/
theorem C4_transport_fails_fast (a : API) (m : String) (ps : List RpcValue)
    (acct k : String) (env : SignedCallEnv)
    (h : (goHasPrefix a.url "http://" || goHasPrefix a.url "https://") = false) :
    (a.SignedCall m ps acct k env).outcome = .error .transport ∧
    (a.SignedCall m ps acct k env).effects = [] ∧
    (a.SignedCall m ps acct k env).builtParams = none ∧
    (a.SignedCall m ps acct k env).api = a ∧
    a.validateTransportForSignedCall =
      some "signed calls can only be made when using HTTP transport" := by
  rw [Bool.or_eq_false_iff] at h
  have hv : a.validateTransportForSignedCall =
      some "signed calls can only be made when using HTTP transport" := by
    unfold API.validateTransportForSignedCall
    simp [h.1, h.2]
  have hmain := signedCall_of_invalid_transport a m ps acct k env _ hv
  exact ⟨hmain.2.2.2.2, hmain.2.2.1, hmain.2.2.2.1, hmain.1, hv⟩

/-- C4 (witness): the theorem applied at a concrete wss:// endpoint. -/
theorem C4_witness :
    (API.SignedCall { url := "wss://api.steemit.com", maxRetry := 5, seqNo := 0 }
        "condenser_api.get_accounts" [RpcValue.plain "alice"] "alice" "5Key"
        c1Env).outcome = .error .transport ∧
    (API.SignedCall { url := "wss://api.steemit.com", maxRetry := 5, seqNo := 0 }
        "condenser_api.get_accounts" [RpcValue.plain "alice"] "alice" "5Key"
        c1Env).effects = [] :=
  ⟨(C4_transport_fails_fast { url := "wss://api.steemit.com", maxRetry := 5, seqNo := 0 }
      "condenser_api.get_accounts" [RpcValue.plain "alice"] "alice" "5Key"
      c1Env (by decide)).1,
   (C4_transport_fails_fast { url := "wss://api.steemit.com", maxRetry := 5, seqNo := 0 }
      "condenser_api.get_accounts" [RpcValue.plain "alice"] "alice" "5Key"
      c1Env (by decide)).2.1⟩

/-! ## Helper lemmas about transaction preparation -/

/-- Pushing a list of operations appends them in order and changes no
other field. -/
theorem Transaction.pushAll_eq (t : Transaction) (ops : List Operation) :
    t.pushAll ops = { t with Operations := t.Operations ++ ops } := by
  induction ops generalizing t with
  | nil => simp [Transaction.pushAll]
  | cons op ops ih =>
    show (t.PushOperation op).pushAll ops = _
    rw [ih]
    simp [Transaction.PushOperation]

/-- Inversion of a successful broadcast.go prepareTransaction run. -/
theorem BroadcastGo.prepareGo_ok (ops : List Operation) (env : ChainEnv)
    (tx : Transaction) (h : BroadcastGo.prepareTransaction ops env = .ok tx) :
    ∃ dgp prefixVal, env.dgp = .ok dgp ∧
      RefBlockPrefix dgp.HeadBlockId = .ok prefixVal ∧
      ops.length ≠ 0 ∧
      tx = { RefBlockNum := RefBlockNum dgp.HeadBlockNumber,
             RefBlockPrefix := prefixVal,
             Expiration := (timeNow env.nowUnix).add 600,
             Operations := ops, Extensions := none, Signatures := [] } := by
  unfold BroadcastGo.prepareTransaction at h
  split at h
  · simp at h
  · split at h
    · simp at h
    · next dgp hdgp =>
      split at h
      · simp at h
      · next prefixVal hpre =>
        simp only [Except.ok.injEq] at h
        refine ⟨dgp, prefixVal, hdgp, hpre, by assumption, ?_⟩
        rw [← h, Transaction.pushAll_eq]
        simp

/-- Inversion of a successful part_008 prepareTransaction run. -/
theorem BroadcastPart8.preparePart8_ok (ops : List Operation) (env : ChainEnv)
    (tx : Transaction) (h : BroadcastPart8.prepareTransaction ops env = .ok tx) :
    ∃ dgp blk prefixVal, env.dgp = .ok dgp ∧
      env.getBlock dgp.LastIrreversibleBlockNum = .ok blk ∧
      RefBlockPrefix (if blk.Previous = "" then
          "0000000000000000000000000000000000000000"
        else blk.Previous) = .ok prefixVal ∧
      ops.length ≠ 0 ∧
      tx = { RefBlockNum :=
               RefBlockNum (((dgp.LastIrreversibleBlockNum + 4294967295) %
                 4294967296) % 65536),
             RefBlockPrefix := prefixVal,
             Expiration := ((timeNow env.nowUnix).toUTC).add 600,
             Operations := ops, Extensions := some [], Signatures := [] } := by
  unfold BroadcastPart8.prepareTransaction at h
  split at h
  · simp at h
  · split at h
    · simp at h
    · next dgp hdgp =>
      split at h
      · simp at h
      · next blk hblk =>
        split at h
        · next hP =>
          dsimp only at h
          split at h
          · simp at h
          · next prefixVal hpre =>
            simp only [Except.ok.injEq] at h
            refine ⟨dgp, blk, prefixVal, hdgp, hblk, ?_, by assumption, ?_⟩
            · rw [if_pos hP]; exact hpre
            · rw [← h, Transaction.pushAll_eq]; simp
        · next hP =>
          dsimp only at h
          split at h
          · simp at h
          · next prefixVal hpre =>
            simp only [Except.ok.injEq] at h
            refine ⟨dgp, blk, prefixVal, hdgp, hblk, ?_, by assumption, ?_⟩
            · rw [if_neg hP]; exact hpre
            · rw [← h, Transaction.pushAll_eq]; simp

/-! ## C2 -/

/-- C2: Broadcast.Send iterates the privKeys map in Go's per-run
randomized order and signs in that order, so two runs with identical
operations and identical keys can produce the signature list in two
different orders: the two iteration orders below are permutations of
the same two-entry map, both runs broadcast successfully, and the
signature lists they attach differ. This refutes the claimed fixed,
reproducible signature order. -/
theorem C2_signature_order_not_reproducible :
    c2IterA.Perm c2IterB ∧
    (BroadcastGo.Send ["vote"] c2IterA demoChainEnv (fun w => some w)
        (.ok "ok")).result = .ok "ok" ∧
    (BroadcastGo.Send ["vote"] c2IterB demoChainEnv (fun w => some w)
        (.ok "ok")).result = .ok "ok" ∧
    ((BroadcastGo.Send ["vote"] c2IterA demoChainEnv (fun w => some w)
        (.ok "ok")).sentTx.map Transaction.Signatures ==
     (BroadcastGo.Send ["vote"] c2IterB demoChainEnv (fun w => some w)
        (.ok "ok")).sentTx.map Transaction.Signatures) = false := by
  refine ⟨List.Perm.swap _ _ _, by decide, by decide, by decide⟩

/-! ## C7 -/

/-- C7 (amended): for every non-empty operation list, both
prepareTransaction variants set the expiration to the instant 600
seconds after the current time; the part_008 variant stamps it in UTC
(time.Now().UTC().Add), while the broadcast.go variant leaves it in the
local zone (time.Now().Add without the UTC conversion). -/
theorem C7_expiration (ops : List Operation) (env : ChainEnv) :
    (∀ tx, BroadcastGo.prepareTransaction ops env = .ok tx →
      tx.Expiration = { unix := env.nowUnix + 600, loc := GoLoc.localZone }) ∧
    (∀ tx, BroadcastPart8.prepareTransaction ops env = .ok tx →
      tx.Expiration = { unix := env.nowUnix + 600, loc := GoLoc.utc }) := by
  constructor
  · intro tx h
    obtain ⟨dgp, prefixVal, _, _, _, htx⟩ := BroadcastGo.prepareGo_ok ops env tx h
    rw [htx]
    rfl
  · intro tx h
    obtain ⟨dgp, blk, prefixVal, _, _, _, _, htx⟩ :=
      BroadcastPart8.preparePart8_ok ops env tx h
    rw [htx]
    rfl

/-- C7 (counterexample): broadcast.go's prepareTransaction, run in a
concrete fully successful environment, produces an expiration carrying
the local — not the UTC — location, refuting "the current UTC
wall-clock time plus 600 seconds" for that variant. -/
theorem C7_counterexample :
    (BroadcastGo.prepareTransaction ["vote"] demoChainEnv).map
        Transaction.Expiration =
      .ok { unix := 1700000600, loc := GoLoc.localZone } ∧
    (BroadcastGo.prepareTransaction ["vote"] demoChainEnv).map
        (fun tx => tx.Expiration.loc == GoLoc.utc) = .ok false := by
  constructor <;> decide

/-- C7 (witness): the amended theorem applied to the concrete
environment; part_008's result is the fully evaluated transaction and
its expiration is the UTC instant now + 600. -/
theorem C7_witness :
    BroadcastPart8.prepareTransaction ["vote"] demoChainEnv = .ok c7Tx8 ∧
    c7Tx8.Expiration = { unix := 1700000000 + 600, loc := GoLoc.utc } :=
  ⟨by decide, (C7_expiration ["vote"] demoChainEnv).2 c7Tx8 (by decide)⟩

/-! ## C8 -/

/-- C8 (amended): part_008's prepareTransaction initializes the
extensions field to a present, zero-length sequence; the
broadcast.go variant, whose transaction literal never sets the field,
leaves it absent (a nil Go slice). -/
theorem C8_extensions (ops : List Operation) (env : ChainEnv) :
    (∀ tx, BroadcastPart8.prepareTransaction ops env = .ok tx →
      tx.Extensions = some []) ∧
    (∀ tx, BroadcastGo.prepareTransaction ops env = .ok tx →
      tx.Extensions = none) := by
  constructor
  · intro tx h
    obtain ⟨dgp, blk, prefixVal, _, _, _, _, htx⟩ :=
      BroadcastPart8.preparePart8_ok ops env tx h
    rw [htx]
  · intro tx h
    obtain ⟨dgp, prefixVal, _, _, _, htx⟩ := BroadcastGo.prepareGo_ok ops env tx h
    rw [htx]

/-- C8 (counterexample): broadcast.go's prepareTransaction, run in a
concrete fully successful environment, returns a transaction whose
extensions field is absent (nil), refuting "initialized to an empty
(present, zero-length) sequence, not left absent". -/
theorem C8_counterexample :
    (BroadcastGo.prepareTransaction ["vote"] demoChainEnv).map
        Transaction.Extensions = .ok none ∧
    (BroadcastGo.prepareTransaction ["vote"] demoChainEnv).map
        (fun tx => tx.Extensions.isSome) = .ok false := by
  constructor <;> decide

/-- C8 (witness): the amended theorem applied to the concrete
environment. -/
theorem C8_witness :
    BroadcastPart8.prepareTransaction ["vote"] demoChainEnv = .ok c7Tx8 ∧
    c7Tx8.Extensions = some [] :=
  ⟨by decide, (C8_extensions ["vote"] demoChainEnv).1 c7Tx8 (by decide)⟩

/-! ## C9 -/

/-- C9: for every successful prepareTransaction, under the head-block
policy (broadcast.go) refBlockNum is the low 16 bits of the head block
number and refBlockPrefix is successfully derived from the head block's
id; under the last-irreversible policy (part_008, with a positive
in-range lastIrreversibleBlockNum and a present previous id)
refBlockNum is the low 16 bits of lastIrreversibleBlockNum - 1 and
refBlockPrefix is successfully derived from the previous-block id of
the block at lastIrreversibleBlockNum. -/
theorem C9_ref_block_binding (ops : List Operation) (env : ChainEnv)
    (dgp : DynamicGlobalProperties) (blk : Block)
    (hdgp : env.dgp = .ok dgp)
    (hblk : env.getBlock dgp.LastIrreversibleBlockNum = .ok blk)
    (hlib1 : 1 ≤ dgp.LastIrreversibleBlockNum)
    (hlib2 : dgp.LastIrreversibleBlockNum < 4294967296)
    (hprev : blk.Previous ≠ "") :
    (∀ tx, BroadcastGo.prepareTransaction ops env = .ok tx →
      tx.RefBlockNum = dgp.HeadBlockNumber % 65536 ∧
      RefBlockPrefix dgp.HeadBlockId = .ok tx.RefBlockPrefix) ∧
    (∀ tx, BroadcastPart8.prepareTransaction ops env = .ok tx →
      tx.RefBlockNum = (dgp.LastIrreversibleBlockNum - 1) % 65536 ∧
      RefBlockPrefix blk.Previous = .ok tx.RefBlockPrefix) := by
  constructor
  · intro tx h
    obtain ⟨dgp', prefixVal, hdgp', hpre, _, htx⟩ :=
      BroadcastGo.prepareGo_ok ops env tx h
    rw [hdgp'] at hdgp
    injection hdgp with hdgp
    subst hdgp
    rw [htx]
    exact ⟨rfl, hpre⟩
  · intro tx h
    obtain ⟨dgp', blk', prefixVal, hdgp', hblk', hpre, _, htx⟩ :=
      BroadcastPart8.preparePart8_ok ops env tx h
    rw [hdgp'] at hdgp
    injection hdgp with hdgp
    subst hdgp
    rw [hblk'] at hblk
    injection hblk with hblk
    subst hblk
    rw [if_neg hprev] at hpre
    rw [htx]
    refine ⟨?_, hpre⟩
    show RefBlockNum _ = _
    unfold RefBlockNum
    omega

/-- C9 (witness): the theorem applied to the concrete environment, for
both variants. -/
theorem C9_witness :
    (BroadcastGo.prepareTransaction ["vote"] demoChainEnv = .ok c7Tx1 ∧
      c7Tx1.RefBlockNum = 20221123 % 65536 ∧
      RefBlockPrefix demoDgp.HeadBlockId = .ok c7Tx1.RefBlockPrefix) ∧
    (BroadcastPart8.prepareTransaction ["vote"] demoChainEnv = .ok c7Tx8 ∧
      c7Tx8.RefBlockNum = (20221100 - 1) % 65536 ∧
      RefBlockPrefix demoBlk.Previous = .ok c7Tx8.RefBlockPrefix) :=
  ⟨⟨by decide,
    ((C9_ref_block_binding ["vote"] demoChainEnv demoDgp demoBlk (by decide)
      (by decide) (by decide) (by decide) (by decide)).1 c7Tx1 (by decide))⟩,
   ⟨by decide,
    ((C9_ref_block_binding ["vote"] demoChainEnv demoDgp demoBlk (by decide)
      (by decide) (by decide) (by decide) (by decide)).2 c7Tx8 (by decide))⟩⟩

/-! ## C10 -/

/-- C10: Client.SignedCall and Client.SignedCallWithResult return an
error while performing no signing and no network work when the client's
AccountName is empty, when the keyType is outside the closed set of the
four key-type constants, or when no private key is imported for that
keyType; and the three checks apply in that order (an empty account
name wins over an invalid keyType, which wins over a missing key). -/
theorem C10_client_precondition_checks (c : Client) (m : String)
    (ps : List RpcValue) (kt : String) (env : SignedCallEnv) :
    (checkKeyType kt = true ↔
      (kt = OWNER_KEY ∨ kt = ACTIVE_KEY ∨ kt = POSTING_KEY ∨ kt = MEMO_KEY)) ∧
    (c.AccountName = "" →
      c.SignedCall m ps kt env = ([], .error .accountNotSet) ∧
      c.SignedCallWithResult m ps kt env = ([], .error .accountNotSet)) ∧
    (c.AccountName ≠ "" → checkKeyType kt = false →
      c.SignedCall m ps kt env = ([], .error (.invalidKeyType kt)) ∧
      c.SignedCallWithResult m ps kt env = ([], .error (.invalidKeyType kt))) ∧
    (c.AccountName ≠ "" → checkKeyType kt = true → c.Wifs.lookup kt = none →
      c.SignedCall m ps kt env = ([], .error (.keyNotFound kt)) ∧
      c.SignedCallWithResult m ps kt env = ([], .error (.keyNotFound kt))) := by
  refine ⟨?_, ?_, ?_, ?_⟩
  · unfold checkKeyType
    by_cases h1 : kt = ACTIVE_KEY <;> by_cases h2 : kt = POSTING_KEY <;>
      by_cases h3 : kt = OWNER_KEY <;> by_cases h4 : kt = MEMO_KEY <;>
      simp [h1, h2, h3, h4]
  · intro h
    constructor <;>
      simp [Client.SignedCall, Client.SignedCallWithResult, h]
  · intro hA hk
    constructor <;>
      simp [Client.SignedCall, Client.SignedCallWithResult, hA, hk]
  · intro hA hk hl
    constructor <;>
      simp [Client.SignedCall, Client.SignedCallWithResult, hA, hk, hl]

/-- C10 (witness): the theorem applied at three concrete clients, one
per precondition failure. -/
theorem C10_witness :
    (Client.SignedCall c10NoAccount "condenser_api.get_accounts"
      [RpcValue.plain "alice"] "active" c1Env = ([], .error .accountNotSet)) ∧
    (Client.SignedCall c10NoKeys "condenser_api.get_accounts"
      [RpcValue.plain "alice"] "master" c1Env =
        ([], .error (.invalidKeyType "master"))) ∧
    (Client.SignedCall c10NoKeys "condenser_api.get_accounts"
      [RpcValue.plain "alice"] "active" c1Env =
        ([], .error (.keyNotFound "active"))) :=
  ⟨((C10_client_precondition_checks c10NoAccount "condenser_api.get_accounts"
      [RpcValue.plain "alice"] "active" c1Env).2.1 (by decide)).1,
   ((C10_client_precondition_checks c10NoKeys "condenser_api.get_accounts"
      [RpcValue.plain "alice"] "master" c1Env).2.2.1 (by decide) (by decide)).1,
   ((C10_client_precondition_checks c10NoKeys "condenser_api.get_accounts"
      [RpcValue.plain "alice"] "active" c1Env).2.2.2 (by decide) (by decide)
      (by decide)).1⟩

/-! ## C5 -/

/-- C5: in the bounded-retry mode, when a block fetch still fails after
its retry budget (the helper sends a nil pointer on the channel),
GetBlocks does not return an error: receiving the nil pointer crashes
with a nil-pointer dereference (`result.BlockNum` runs before the nil
check, client/client.go:217-219), so the intended error return is
unreachable. Concretely: in the range [10, 12), block 10 fails its
single permitted attempt and block 11 succeeds, and GetBlocks crashes. -/
theorem C5_failed_fetch_crashes :
    Client.wrapGetBlock 1 10 (fun _ => none) = none ∧
    Client.GetBlocks 10 12 c5Received = .crash := by
  constructor <;> decide

/-! ## C6 helper lemmas -/

/-- When every received channel message is a non-nil WrapBlock, the
fan-in loop completes and the map is the fold of the insertions. -/
theorem collectBlocks_all_some (rs : List WrapBlock) :
    ∀ m, collectBlocks (rs.map some) m = .ok (rs.foldl insertWB m) := by
  induction rs with
  | nil => intro m; rfl
  | cons w rs ih =>
    intro m
    have hcond : insertWB m w w.BlockNum = some w := by simp [insertWB]
    simp only [List.map_cons, collectBlocks, List.foldl_cons]
    rw [hcond]
    simp [ih]

/-- A key never inserted is not affected by the fold. -/
theorem foldl_insertWB_not_mem (rs : List WrapBlock) :
    ∀ (m : Nat → Option WrapBlock) (i : Nat),
      i ∉ rs.map WrapBlock.BlockNum → (rs.foldl insertWB m) i = m i := by
  induction rs with
  | nil => intro m i hi; rfl
  | cons w rs ih =>
    intro m i hi
    simp only [List.map_cons, List.mem_cons, not_or] at hi
    simp only [List.foldl_cons]
    rw [ih _ i hi.2]
    simp [insertWB, hi.1]

/-- With pairwise-distinct keys, the fold maps each inserted key to its
WrapBlock. -/
theorem foldl_insertWB_mem (rs : List WrapBlock) :
    ∀ (m : Nat → Option WrapBlock) (w : WrapBlock),
      w ∈ rs → (rs.map WrapBlock.BlockNum).Nodup →
      (rs.foldl insertWB m) w.BlockNum = some w := by
  induction rs with
  | nil => intro m w hw; simp at hw
  | cons a rs ih =>
    intro m w hw hnd
    simp only [List.map_cons, List.nodup_cons] at hnd
    simp only [List.foldl_cons]
    rcases List.mem_cons.mp hw with rfl | hw'
    · rw [foldl_insertWB_not_mem rs _ _ hnd.1]
      simp [insertWB]
    · exact ih _ w hw' hnd.2

/-! ## C6 -/

/-- C6: for every range with fromN < toN in which every block is
retrievable — the channel delivers, in an arbitrary order, exactly one
non-nil WrapBlock per block number of the range — GetBlocks returns the
blocks in strictly ascending block-number order: the output is exactly
the ordered list of the fetched blocks, it has toN - fromN entries, and
its block numbers are fromN, fromN+1, … in strictly increasing order. -/
theorem C6_complete_range_sorted (fromN toN : Nat) (B : Nat → Block)
    (rs : List WrapBlock) (h1 : fromN < toN)
    (h2 : rs.Perm ((List.range' fromN (toN - fromN)).map
      (fun i => { BlockNum := i, Block := some (B i) }))) :
    Client.GetBlocks fromN toN (rs.map some) =
      .ok ((List.range' fromN (toN - fromN)).map
        (fun i => some { BlockNum := i, Block := some (B i) })) ∧
    ((List.range' fromN (toN - fromN)).map
      (fun i => (some { BlockNum := i, Block := some (B i) } :
        Option WrapBlock))).length = toN - fromN ∧
    ((List.range' fromN (toN - fromN)).map
      (fun i => (some { BlockNum := i, Block := some (B i) } :
        Option WrapBlock))).filterMap (fun o => o.map WrapBlock.BlockNum) =
      List.range' fromN (toN - fromN) ∧
    (List.range' fromN (toN - fromN)).Pairwise (· < ·) := by
  have hkeys : ((List.range' fromN (toN - fromN)).map
      (fun i => ({ BlockNum := i, Block := some (B i) } : WrapBlock))).map
        WrapBlock.BlockNum = List.range' fromN (toN - fromN) := by
    rw [List.map_map]
    exact List.map_id _
  have hnd : (rs.map WrapBlock.BlockNum).Nodup := by
    rw [(h2.map WrapBlock.BlockNum).nodup_iff, hkeys]
    exact List.nodup_range' _ _
  have hlookup : ∀ i ∈ List.range' fromN (toN - fromN),
      (rs.foldl insertWB (fun _ => none)) i =
        some { BlockNum := i, Block := some (B i) } := by
    intro i hi
    have hmem : ({ BlockNum := i, Block := some (B i) } : WrapBlock) ∈ rs := by
      rw [h2.mem_iff]
      exact List.mem_map_of_mem _ hi
    exact foldl_insertWB_mem rs (fun _ => none) _ hmem hnd
  refine ⟨?_, ?_, ?_, List.pairwise_lt_range' _ _⟩
  · unfold Client.GetBlocks
    rw [if_neg (by omega)]
    rw [collectBlocks_all_some rs (fun _ => none)]
    exact congrArg GoResult.ok (List.map_congr_left hlookup)
  · rw [List.length_map, List.length_range']
  · rw [List.filterMap_map]
    have : ∀ i ∈ List.range' fromN (toN - fromN),
        ((fun o => Option.map WrapBlock.BlockNum o) ∘
          (fun i => (some { BlockNum := i, Block := some (B i) } :
            Option WrapBlock))) i = some i := by
      intro i hi; rfl
    rw [List.filterMap_congr this]
    simp [List.filterMap_eq_map]

/-- C6 (witness): the theorem applied at the concrete range [3, 6) with
the channel delivering the three blocks in reversed order. -/
theorem C6_witness :
    Client.GetBlocks 3 6
      ((((List.range' 3 3).map
        (fun i => ({ BlockNum := i, Block := some { Previous := "aa" } } :
          WrapBlock))).reverse).map some) =
      .ok ((List.range' 3 3).map
        (fun i => some { BlockNum := i, Block := some { Previous := "aa" } })) :=
  (C6_complete_range_sorted 3 6 (fun _ => { Previous := "aa" })
    (((List.range' 3 3).map
      (fun i => { BlockNum := i, Block := some { Previous := "aa" } })).reverse)
    (by decide) (List.reverse_perm _)).1

end Steem
